import Mathlib

/-!
# Verification of the WASSERFALL fleet command executor

Shallow embedding of the two executor variants (shell over SSH, SQL over
SSH) of the WASSERFALL repository, together with proofs about the error
classifiers, the remote-command runners, the per-host pipelines and the
fleet-level aggregation.

External effects (remote execution, the SQLite config store, the template
engine, JSON parsing, the paramiko transport) are modelled as explicit
oracle inputs; Python exceptions are modelled as `Except.error` values, so
an `Except.error` escaping a pipeline function models an exception raised
past that pipeline's boundary.
-/

namespace Wasserfall

/-! ## Python string primitives -/

/-- Prefix test on character lists (helper for the substring model). -/
def charsPfx : List Char → List Char → Bool
  | [], _ => true
  | _ :: _, [] => false
  | p :: ps, c :: cs => p = c && charsPfx ps cs

/-- Substring test on character lists: the pattern occurs at some position. -/
def charsSub (pat : List Char) : List Char → Bool
  | [] => pat.isEmpty
  | c :: cs => charsPfx pat (c :: cs) || charsSub pat cs

/-- Model of the Python containment test `pat in hay` on strings. -/
def pyContains (hay pat : String) : Bool :=
  charsSub pat.toList hay.toList

/-- Model of Python `str.lower()` (ASCII case folding, as used by the
classifiers' all-ASCII patterns). -/
def pyLower (s : String) : String :=
  String.mk (s.toList.map Char.toLower)

/-! ## Error classifiers

From `src/command_executor_ssh/modules/ssh_runner.py` (`_classify_ssh_error`)
and `src/command_executor_postgresql/modules/postgres_runner.py`
(`_parse_psql_error`). -/

/-- Model of `_classify_ssh_error(stderr, exit_code)`: classify a
shell-unit failure from its stderr text and exit code. -/
def classify_ssh_error (stderr : String) (exit_code : Int) : String :=
  let err := pyLower stderr
  if pyContains err ("permission denied") then "cmd_12"
  else if pyContains err ("not found") || pyContains err ("no such file") then "cmd_10"
  else if pyContains err ("timeout") then "cmd_16"
  else if pyContains err ("sudo") && pyContains err ("password") then "cmd_12"
  else if exit_code ≠ 0 then "cmd_18"
  else "cmd_99"

/-- Model of `_parse_psql_error(stderr, exit_code)`: classify a SQL-unit
failure from its stderr text and exit code. -/
def parse_psql_error (stderr : String) (exit_code : Int) : String :=
  let err := pyLower stderr
  if pyContains err ("psql: not found") || pyContains err ("command not found") then "pg_10"
  else if pyContains err ("fatal") && pyContains err ("password") then "pg_12"
  else if pyContains err ("fatal") && (pyContains err ("could not connect") || pyContains err ("no route")) then "pg_16"
  else if pyContains err ("syntax error") || pyContains err ("error:") then "pg_14"
  else if exit_code ≠ 0 then "pg_18"
  else "pg_99"

/-! ## Spec-side rule tables

The spec describes each classifier as an ordered rule table evaluated
top-to-bottom, first match wins, with an exit-code-dependent fallback.
These definitions follow the spec's words, to be compared with the
source-side classifiers above. -/

/-- First-match evaluation of an ordered list of (guard, code) rules with a
default code. -/
def firstMatch : List (Bool × String) → String → String
  | [], dflt => dflt
  | (g, c) :: rest, dflt => if g then c else firstMatch rest dflt

/-- The spec's ordered rule table for the shell kind (guards over the
lowercased stderr). -/
def shellRules (err : String) : List (Bool × String) :=
  [ (pyContains err ("permission denied"), "cmd_12"),
    (pyContains err ("not found") || pyContains err ("no such file"), "cmd_10"),
    (pyContains err ("timeout"), "cmd_16"),
    (pyContains err ("sudo") && pyContains err ("password"), "cmd_12") ]

/-- Shell-kind classification exactly as claim C4 states it: the rule
table, then GenericFailure on non-zero exit, else the Success code. -/
def shellClassifyClaimed (stderr : String) (exit_code : Int) : String :=
  firstMatch (shellRules (pyLower stderr)) (if exit_code ≠ 0 then "cmd_18" else "cmd_0")

/-- Shell-kind classification with the amended fallback: the rule table,
then GenericFailure on non-zero exit, else a distinct Unknown code. -/
def shellClassifyAmended (stderr : String) (exit_code : Int) : String :=
  firstMatch (shellRules (pyLower stderr)) (if exit_code ≠ 0 then "cmd_18" else "cmd_99")

/-- The spec's ordered rule table for the sql kind (guards over the
lowercased stderr). -/
def sqlRules (err : String) : List (Bool × String) :=
  [ (pyContains err ("psql: not found") || pyContains err ("command not found"), "pg_10"),
    (pyContains err ("fatal") && pyContains err ("password"), "pg_12"),
    (pyContains err ("fatal") && (pyContains err ("could not connect") || pyContains err ("no route")), "pg_16"),
    (pyContains err ("syntax error") || pyContains err ("error:"), "pg_14") ]

/-- Sql-kind classification as claim C5 states it (with its qualifier):
the rule table, then GenericFailure on non-zero exit, else the distinct
Unknown code. -/
def sqlClassifySpec (stderr : String) (exit_code : Int) : String :=
  firstMatch (sqlRules (pyLower stderr)) (if exit_code ≠ 0 then "pg_18" else "pg_99")

/-! ## Runner data model

Values flowing out of one remote invocation. The remote execution itself
(an SSH `exec_command` call) is modelled by an `Except String ExecOut`
oracle: `Except.ok` carries the stripped, decoded stdout/stderr and the
exit status; `Except.error` models a transport exception raised during
execution. JSON parsing (`json.loads`) is modelled by an oracle
`String → Option Json` (`none` = `JSONDecodeError`). -/

/-- A JSON value, the codomain of the `json.loads` oracle. Python `None`
and JSON `null` are both represented by `Json.null`. -/
inductive Json where
  | null
  | bool (b : Bool)
  | num (n : Int)
  | str (s : String)
  | arr (xs : List Json)
  | obj (kvs : List (String × Json))

/-- The SQL runner's `data` payload: a JSON value, or the raw stdout text
kept when JSON parsing fails. -/
inductive PgData where
  | jv (j : Json)
  | raw (s : String)

/-- Stripped, decoded stdout/stderr and the remote exit status of one
dispatched invocation. -/
structure ExecOut where
  out : String
  err : String
  code : Int

/-- The SQL runner's result dictionary: `{data, stderr, exit_code}`. -/
structure PgRes where
  data : PgData
  stderr : String
  exit_code : Int

/-- The shell runner's result dictionary:
`{command, stdout, stderr, exit_code}`. -/
structure CmdRes where
  command : String
  stdout : String
  stderr : String
  exit_code : Int

/-! ## SQL command runner

From `src/command_executor_postgresql/modules/postgres_runner.py`
(`run_postgres_command_over_ssh`), after the command string has been
built: the remote execution attempt is the `exec` oracle. -/

/-- Model of `run_postgres_command_over_ssh`: on a transport exception
return the dispatch-failure code; on exit 0 parse stdout as JSON (empty
stdout gives the empty array, a parse failure keeps the raw text) and
return the success code; otherwise classify the stderr text. -/
def run_postgres_command_over_ssh (parse : String → Option Json)
    (exec : Except String ExecOut) : PgRes × String :=
  match exec with
  | .error _ => ({ data := .jv .null, stderr := "SSH Execution Failed", exit_code := -1 }, "ssh_99")
  | .ok e =>
    let res : PgRes := { data := .jv .null, stderr := e.err, exit_code := e.code }
    if e.code = 0 then
      if e.out = "" then ({ res with data := .jv (.arr []) }, "pg_0")
      else
        match parse e.out with
        | some j => ({ res with data := .jv j }, "pg_0")
        | none => ({ res with data := .raw e.out }, "pg_0")
    else (res, parse_psql_error e.err e.code)

/-! ## Shell command runner

From `src/command_executor_ssh/modules/ssh_runner.py` (`run_ssh_command`).
The remote side is modelled by a `world` oracle mapping the dispatched
command string to its execution outcome. -/

/-- The command string actually dispatched: the sudo prefix is prepended
when the sudo flag is set. -/
def ssh_full_cmd (command : String) (useSudo : Bool) (sudo_user : String) : String :=
  if useSudo then ("sudo -u ") ++ sudo_user ++ (" ") ++ command else command

/-- Model of `run_ssh_command`: dispatch the (possibly sudo-prefixed)
command; on a transport exception return the dispatch-failure code; on
exit 0 the shell success code; otherwise classify the stderr text. -/
def run_ssh_command (world : String → Except String ExecOut)
    (command : String) (useSudo : Bool) (sudo_user : String) : CmdRes × String :=
  match world (ssh_full_cmd command useSudo sudo_user) with
  | .ok e =>
    let result : CmdRes := { command := command, stdout := e.out, stderr := e.err, exit_code := e.code }
    if e.code = 0 then (result, "cmd_0") else (result, classify_ssh_error e.err e.code)
  | .error msg => ({ command := command, stdout := "", stderr := msg, exit_code := -1 }, "ssh_99")

/-- The shell in-session code family: the success code plus every code the
shell classifier can produce. -/
def shellSessionCodes : List String :=
  ["cmd_0", "cmd_10", "cmd_12", "cmd_16", "cmd_18", "cmd_99"]

/-- The sql in-session code family: the success code plus every code the
sql classifier can produce. -/
def sqlSessionCodes : List String :=
  ["pg_0", "pg_10", "pg_12", "pg_14", "pg_16", "pg_18", "pg_99"]

/-! ## Log records -/

/-- One record written by `log_execution` (`src/common/logger.py`): the
task (host, rendered text, unit label) and the result (code, exit code,
stderr payload). -/
structure LogRecord where
  target_host : String
  query_text : String
  code : String
  database_name : Option String
  exit_code : Int
  stderr : String

/-! ## SQL host pipeline

From `src/command_executor_postgresql/main.py` (`process_host`). The
config lookup, SSH connection, database discovery, template fetch/render
and per-database execution are oracle fields of `PgEnv`; the pair returned
is (log records written, outcome), where `Except.error` models an
exception escaping `process_host`. -/

/-- One per-database entry of the result dictionary's `results` list:
`{database, pg_code, exit_code, success, data}`. -/
structure PgUnit where
  database : String
  pg_code : String
  exit_code : Int
  success : Bool
  data : PgData

/-- The dictionary returned by the SQL variant's `process_host`. A `none`
field models an absent key (Python `dict.get` then yields `None`). -/
structure PgHostResult where
  host : String
  ssh_code : String
  pg_code : Option String
  results : Option (List PgUnit)
  success : Bool
  error : Option String
  databases_processed : Nat
  databases_failed : Nat

/-- Oracle environment for one SQL-variant host: the outcome of each
external call the pipeline makes, in source order. -/
structure PgEnv where
  host_name : String
  cmd_name : String
  config : Except String Unit
  ssh_code : String
  target_dbs : Option (List String)
  discovered : Except String (List String)
  exclude_dbs : Option (List String)
  template : Except String String
  runExec : String → Except String ExecOut
  parse : String → Option Json

/-- Target-set resolution (source: target list truthiness test, live
discovery, exclusion filter). Python truthiness: a supplied but empty
`--db` list falls back to discovery; the exclusion filter runs only when
both the exclusion list and the database list are non-empty. -/
def resolveDbs (env : PgEnv) : Except String (List String) :=
  let base : Except String (List String) :=
    match env.target_dbs with
    | some l => if l.isEmpty then env.discovered else Except.ok l
    | none => env.discovered
  match base with
  | .error e => .error e
  | .ok dbs =>
    match env.exclude_dbs with
    | some ex =>
      if !ex.isEmpty && !dbs.isEmpty then .ok (dbs.filter (fun db => !(ex.contains db)))
      else .ok dbs
    | none => .ok dbs

/-- One iteration of the per-database loop: run the rendered SQL against
one database, produce its log record and its `results` entry. -/
def pgUnitStep (env : PgEnv) (rendered : String) (db : String) : LogRecord × PgUnit :=
  let rp := run_postgres_command_over_ssh env.parse (env.runExec db)
  ({ target_host := env.host_name, query_text := rendered, code := rp.2,
     database_name := some db, exit_code := rp.1.exit_code, stderr := rp.1.stderr },
   { database := db, pg_code := rp.2, exit_code := rp.1.exit_code,
     success := rp.2 == "pg_0", data := rp.1.data })

/-- The dictionary returned on a config-lookup failure (the exception is
caught, logged with code `ssh_99`, and converted). -/
def pgConfigFailRes (env : PgEnv) (e : String) : PgHostResult :=
  { host := env.host_name, ssh_code := "ssh_99", pg_code := none, results := none,
    success := false, error := some (("CONFIG_ERROR: ") ++ e),
    databases_processed := 0, databases_failed := 0 }

/-- The log record written on a config-lookup failure. -/
def pgConfigFailLog (env : PgEnv) (e : String) : LogRecord :=
  { target_host := env.host_name, query_text := ("CONFIG_ERROR: ") ++ env.cmd_name,
    code := "ssh_99", database_name := none, exit_code := -1,
    stderr := ("CONFIG_ERROR: ") ++ e }

/-- The dictionary returned when the SSH connection fails. -/
def pgSshFailRes (env : PgEnv) : PgHostResult :=
  { host := env.host_name, ssh_code := env.ssh_code, pg_code := none, results := none,
    success := false, error := some (("SSH Connection Failed: ") ++ env.ssh_code),
    databases_processed := 0, databases_failed := 0 }

/-- The log record written when the SSH connection fails. -/
def pgSshFailLog (env : PgEnv) : LogRecord :=
  { target_host := env.host_name, query_text := ("SSH_ERROR: ") ++ env.cmd_name,
    code := env.ssh_code, database_name := none, exit_code := -1,
    stderr := ("SSH Connection Failed: ") ++ env.ssh_code }

/-- The dictionary returned when the resolved target set is empty. -/
def pgNoDbRes (env : PgEnv) : PgHostResult :=
  { host := env.host_name, ssh_code := "ssh_0", pg_code := some "pg_99", results := none,
    success := false, error := some ("No databases to process"),
    databases_processed := 0, databases_failed := 0 }

/-- The log record written when the resolved target set is empty. -/
def pgNoDbLog (env : PgEnv) : LogRecord :=
  { target_host := env.host_name, query_text := ("DB_LIST_ERROR: ") ++ env.cmd_name,
    code := "pg_99", database_name := none, exit_code := -1,
    stderr := "No databases to process" }

/-- The dictionary returned on a template fetch/render failure. -/
def pgTemplateFailRes (env : PgEnv) (e : String) : PgHostResult :=
  { host := env.host_name, ssh_code := "ssh_0", pg_code := some "pg_99", results := none,
    success := false, error := some (("Template Error: ") ++ e),
    databases_processed := 0, databases_failed := 0 }

/-- The log record written on a template fetch/render failure. -/
def pgTemplateFailLog (env : PgEnv) (e : String) : LogRecord :=
  { target_host := env.host_name, query_text := ("TEMPLATE_ERROR: ") ++ env.cmd_name,
    code := "pg_99", database_name := none, exit_code := -1,
    stderr := ("Template Error: ") ++ e }

/-- The dictionary returned from the main execution path: one `results`
entry per database, overall success iff the (non-empty) unit list is
all-successes. -/
def pgMainRes (env : PgEnv) (rendered : String) (dbs : List String) : PgHostResult :=
  let results := (dbs.map (pgUnitStep env rendered)).map Prod.snd
  { host := env.host_name, ssh_code := "ssh_0", pg_code := none, results := some results,
    success := if results.isEmpty then false else results.all (fun r => r.success),
    error := none, databases_processed := results.length,
    databases_failed := (results.filter (fun r => !r.success)).length }

/-- Model of the SQL variant's `process_host`: config failure, SSH
failure, empty target set and template failure each log one record and
return a failure dictionary; a discovery exception escapes (the function
has no handler for it); otherwise each database is executed and logged
and the final dictionary carries the per-unit results. -/
def processHostPg (env : PgEnv) : List LogRecord × Except String PgHostResult :=
  match env.config with
  | .error e => ([pgConfigFailLog env e], Except.ok (pgConfigFailRes env e))
  | .ok _ =>
    if env.ssh_code ≠ "ssh_0" then
      ([pgSshFailLog env], Except.ok (pgSshFailRes env))
    else
      match resolveDbs env with
      | .error e => ([], Except.error e)
      | .ok dbs =>
        if dbs.isEmpty then
          ([pgNoDbLog env], Except.ok (pgNoDbRes env))
        else
          match env.template with
          | .error e => ([pgTemplateFailLog env e], Except.ok (pgTemplateFailRes env e))
          | .ok rendered =>
            ((dbs.map (pgUnitStep env rendered)).map Prod.fst,
             Except.ok (pgMainRes env rendered dbs))

/-- Number of units of a target set whose runner invocation yields the
SQL success code. -/
def numSuccessUnits (env : PgEnv) (dbs : List String) : Nat :=
  (dbs.map (fun db => (run_postgres_command_over_ssh env.parse (env.runExec db)).2)).countP
    (fun c => c == "pg_0")

/-! ## Fleet-level bucketing (SQL variant)

From `src/command_executor_postgresql/main.py` (`main`, the
`as_completed` loop): success when `result.get("success")` is truthy,
else PARTIAL when `result.get("results")` is truthy, else FAIL; an
exception escaping the future also counts FAIL. -/

/-- The three fleet-summary buckets. -/
inductive Bucket where
  | succ
  | part
  | fail
deriving DecidableEq

/-- Python truthiness of the `results` value: present and non-empty. -/
def pyTruthyResults : Option (List PgUnit) → Bool
  | none => false
  | some l => !l.isEmpty

/-- The bucket `main` increments for one completed host. -/
def pgBucket : Except String PgHostResult → Bucket
  | .error _ => .fail
  | .ok r => if r.success then .succ else if pyTruthyResults r.results then .part else .fail

/-- The fleet summary printed at the end of the SQL variant's `main`. -/
structure FleetSummary where
  nSuccess : Nat
  nPart : Nat
  nFail : Nat

/-- Tally of the three buckets over the completed hosts. -/
def pgSummary (outs : List (Except String PgHostResult)) : FleetSummary :=
  { nSuccess := outs.countP (fun o => decide (pgBucket o = Bucket.succ)),
    nPart := outs.countP (fun o => decide (pgBucket o = Bucket.part)),
    nFail := outs.countP (fun o => decide (pgBucket o = Bucket.fail)) }

/-- Process exit status of the SQL variant's entry point on the normal
path: `main()` prints the tally and returns `None`, and the module-level
call discards that value without `sys.exit`, so the interpreter exits 0
regardless of the outcomes. -/
def pgProcessExitCode (outs : List (Except String PgHostResult)) : Int :=
  let _summary := pgSummary outs
  0

/-! ## Shell host pipeline

From `src/command_executor_ssh/main.py` (`process_host` and `main`). -/

/-- The dictionary returned by the shell variant's `process_host`. -/
structure ShellRes where
  host : String
  success : Bool
  error : Option String
  cmd_code : Option String
  exit_code : Option Int
  stdout : String
  stderr : String

/-- Oracle environment for one shell-variant host. -/
structure ShellEnv where
  host_name : String
  command_template : String
  config : Except String Unit
  render : Except String String
  dry_run : Bool
  ssh_code : String
  world : String → Except String ExecOut
  useSudo : Bool
  sudo_user : String

/-- The dictionary returned on a dry run. -/
def shellDryRes (env : ShellEnv) (rendered : String) : ShellRes :=
  { host := env.host_name, success := true, error := none, cmd_code := some "cmd_0",
    exit_code := none, stdout := ("[DRY-RUN] ") ++ rendered, stderr := "" }

/-- The dictionary returned when the SSH connection fails. -/
def shellSshFailRes (env : ShellEnv) : ShellRes :=
  { host := env.host_name, success := false,
    error := some (("SSH error: ") ++ env.ssh_code),
    cmd_code := some env.ssh_code, exit_code := some (-1), stdout := "", stderr := "" }

/-- The log record written when the SSH connection fails. -/
def shellSshFailLog (env : ShellEnv) (rendered : String) : LogRecord :=
  { target_host := env.host_name, query_text := rendered, code := env.ssh_code,
    database_name := none, exit_code := -1, stderr := env.ssh_code }

/-- The dictionary returned after the single unit ran (or its dispatch
raised, which the runner converts). -/
def shellRunRes (env : ShellEnv) (rendered : String) : ShellRes :=
  let rc := run_ssh_command env.world rendered env.useSudo env.sudo_user
  { host := env.host_name, success := rc.2 == "cmd_0", error := none,
    cmd_code := some rc.2, exit_code := some rc.1.exit_code,
    stdout := rc.1.stdout, stderr := rc.1.stderr }

/-- The log record written after the single unit ran. -/
def shellRunLog (env : ShellEnv) (rendered : String) : LogRecord :=
  let rc := run_ssh_command env.world rendered env.useSudo env.sudo_user
  { target_host := env.host_name, query_text := rendered, code := rc.2,
    database_name := none, exit_code := rc.1.exit_code, stderr := rc.1.stderr }

/-- Model of the shell variant's `process_host`: the body is a
`try/finally` with no exception handler, so a config-lookup or
template-rendering exception escapes with nothing logged; an SSH failure
and the command execution itself are logged and returned. -/
def processHostSsh (env : ShellEnv) : List LogRecord × Except String ShellRes :=
  match env.config with
  | .error e => ([], Except.error e)
  | .ok _ =>
    match env.render with
    | .error e => ([], Except.error e)
    | .ok rendered =>
      if env.dry_run then
        ([], Except.ok (shellDryRes env rendered))
      else if env.ssh_code ≠ "ssh_0" then
        ([shellSshFailLog env rendered], Except.ok (shellSshFailRes env))
      else
        ([shellRunLog env rendered], Except.ok (shellRunRes env rendered))

/-- True when a completed shell host is not a full success (a failure
dictionary, or an exception caught by the dispatcher's loop). -/
def shellNotFullSuccess : Except String ShellRes → Bool
  | .error _ => true
  | .ok r => !r.success

/-- The shell variant's `main` return value, passed to `sys.exit`: 1 when
no hosts are active, else 0 iff the fail counter stayed 0. -/
def shellMainExitCode (outs : List (Except String ShellRes)) : Int :=
  if outs.isEmpty then 1
  else if outs.countP shellNotFullSuccess = 0 then 0 else 1

/-! ## Host session manager

From `src/common/getter.py` (`get_ssh_connection`). The paramiko client
behavior is modelled from the library's documented contract:
`load_system_host_keys` seeds the client's key store with the previously
trusted keys, `RejectPolicy` makes `connect` raise on a host whose
presented key is not in the store, and `AutoAddPolicy` adds the unknown
key to the client's key store and proceeds. -/

/-- The missing-host-key policy installed on the client. -/
inductive HostKeyPolicy where
  | reject
  | autoAdd

/-- The network side of a connection attempt: the key each host presents
and whether the rest of the handshake (DNS, TCP, auth) succeeds. -/
structure SshNet where
  presentedKey : String → String
  reachable : String → Bool

/-- The paramiko client state we track: its host-key store and policy. -/
structure SshClientState where
  hostKeys : List (String × String)
  policy : HostKeyPolicy

/-- Model of `paramiko.SSHClient.connect` under a missing-host-key
policy: a known key proceeds with the handshake; an unknown key is
rejected (`RejectPolicy`) or trusted and recorded (`AutoAddPolicy`). -/
def paramikoConnect (st : SshClientState) (net : SshNet) (hostname : String) :
    Except String SshClientState :=
  let key := net.presentedKey hostname
  if (hostname, key) ∈ st.hostKeys then
    if net.reachable hostname then Except.ok st
    else Except.error ("connection failed")
  else
    match st.policy with
    | .reject => Except.error (("Server ") ++ hostname ++ (" not found in known_hosts"))
    | .autoAdd =>
      let st2 : SshClientState := { st with hostKeys := (hostname, key) :: st.hostKeys }
      if net.reachable hostname then Except.ok st2
      else Except.error ("connection failed")

/-- Model of `get_ssh_connection`: with `allow_new_hosts` the client gets
`AutoAddPolicy` (and no system keys are loaded); otherwise the system
host keys are loaded and `RejectPolicy` installed. Any connection error
collapses to `(None, "ssh_99: " + message)`; success returns the client
and `"ssh_0"`. -/
def get_ssh_connection (systemHostKeys : List (String × String)) (net : SshNet)
    (hostname : String) (allow_new_hosts : Bool) : Option SshClientState × String :=
  let client : SshClientState :=
    if allow_new_hosts then { hostKeys := [], policy := .autoAdd }
    else { hostKeys := systemHostKeys, policy := .reject }
  match paramikoConnect client net hostname with
  | .ok st => (some st, "ssh_0")
  | .error e => (none, ("ssh_99: ") ++ e)

/-! ## Concrete environments for witnesses and counterexamples -/

/-- A JSON-parse oracle that always fails (stdout never parses). -/
def pgParseNone : String → Option Json := fun _ => none

/-- SQL host with one database whose unit fails (exit 1, generic error
text): every unit ran and every unit failed. -/
def pgEnvAllFail : PgEnv :=
  { host_name := "h1", cmd_name := "cmd", config := Except.ok (), ssh_code := "ssh_0",
    target_dbs := some ["db1"], discovered := Except.error ("unused"),
    exclude_dbs := none, template := Except.ok ("SELECT 1"),
    runExec := fun _ => Except.ok ⟨"", "ERROR: boom", 1⟩, parse := pgParseNone }

/-- SQL host with two databases, one succeeding and one failing. -/
def pgEnvMixed : PgEnv :=
  { host_name := "h1", cmd_name := "cmd", config := Except.ok (), ssh_code := "ssh_0",
    target_dbs := some ["a", "b"], discovered := Except.error ("unused"),
    exclude_dbs := none, template := Except.ok ("SELECT 1"),
    runExec := fun db => if db = "a" then Except.ok ⟨"", "", 0⟩ else Except.ok ⟨"", "ERROR: x", 1⟩,
    parse := pgParseNone }

/-- SQL host whose two discovered databases are both excluded: the
resolved target set is empty. -/
def pgEnvExcluded : PgEnv :=
  { host_name := "h1", cmd_name := "cmd", config := Except.ok (), ssh_code := "ssh_0",
    target_dbs := none, discovered := Except.ok ["d1", "d2"],
    exclude_dbs := some ["d1", "d2"], template := Except.ok ("SELECT 1"),
    runExec := fun _ => Except.ok ⟨"", "", 0⟩, parse := pgParseNone }

/-- SQL host whose SSH connection fails. -/
def pgEnvSshFail : PgEnv :=
  { host_name := "h1", cmd_name := "cmd", config := Except.ok (), ssh_code := "ssh_99: no route",
    target_dbs := some ["db1"], discovered := Except.error ("unused"),
    exclude_dbs := none, template := Except.ok ("SELECT 1"),
    runExec := fun _ => Except.ok ⟨"", "", 0⟩, parse := pgParseNone }

/-- SQL host whose config lookup raises. -/
def pgEnvBadConfig : PgEnv :=
  { host_name := "h1", cmd_name := "cmd", config := Except.error ("Host missing"),
    ssh_code := "ssh_0", target_dbs := some ["db1"], discovered := Except.error ("unused"),
    exclude_dbs := none, template := Except.ok ("SELECT 1"),
    runExec := fun _ => Except.ok ⟨"", "", 0⟩, parse := pgParseNone }

/-- Shell host whose config lookup raises (`ValueError` for an unknown or
disabled host). -/
def shellEnvBadConfig : ShellEnv :=
  { host_name := "h1", command_template := "t",
    config := Except.error ("Host not found or disabled"),
    render := Except.ok ("t"), dry_run := false, ssh_code := "ssh_0",
    world := fun _ => Except.ok ⟨"ok", "", 0⟩, useSudo := false, sudo_user := "root" }

/-- A network where every host presents key "k" and is reachable. -/
def netAllK : SshNet := { presentedKey := fun _ => "k", reachable := fun _ => true }

/-! ## Shared helper lemmas -/

/-- The shell classifier only ever produces in-session shell codes. -/
theorem classify_ssh_error_mem (s : String) (e : Int) :
    classify_ssh_error s e ∈ ["cmd_0", "cmd_10", "cmd_12", "cmd_16", "cmd_18", "cmd_99"] := by
  simp only [classify_ssh_error]
  split_ifs <;> simp

/-- The sql classifier only ever produces in-session sql codes. -/
theorem parse_psql_error_mem (s : String) (e : Int) :
    parse_psql_error s e ∈ ["pg_0", "pg_10", "pg_12", "pg_14", "pg_16", "pg_18", "pg_99"] := by
  simp only [parse_psql_error]
  split_ifs <;> simp

/-- The sql classifier never produces the success code. -/
theorem parse_psql_error_ne_success (s : String) (e : Int) :
    parse_psql_error s e ≠ "pg_0" := by
  simp only [parse_psql_error]
  split_ifs <;> simp

/-- The shell classifier never produces the success code. -/
theorem classify_ssh_error_ne_success (s : String) (e : Int) :
    classify_ssh_error s e ≠ "cmd_0" := by
  simp only [classify_ssh_error]
  split_ifs <;> simp

/-- Transport-failure codes of the `ssh_99:`-prefixed family are never
the session success code. -/
theorem ssh99_prefix_ne (e : String) : ("ssh_99: ") ++ e ≠ "ssh_0" := by
  intro h
  have h2 : (("ssh_99: ") ++ e).length = ("ssh_0" : String).length := by rw [h]
  rw [String.length_append] at h2
  have e8 : ("ssh_99: " : String).length = 8 := rfl
  have e5 : ("ssh_0" : String).length = 5 := rfl
  rw [e8, e5] at h2
  omega

/-- The bare transport code and the session success code differ. -/
theorem ssh99_ne_ssh0 : ("ssh_99" : String) ≠ "ssh_0" := by decide

/-- Each completed host lands in exactly one bucket. -/
theorem bucket_indicator_sum (b : Bucket) :
    (if b = Bucket.succ then (1 : Nat) else 0) + (if b = Bucket.part then 1 else 0)
      + (if b = Bucket.fail then 1 else 0) = 1 := by
  cases b <;> simp

/-- The unit list of the main execution path is all-successes iff the
count of succeeding units equals the target-set size. -/
theorem all_success_iff (env : PgEnv) (rendered : String) (dbs : List String) :
    ((dbs.map (pgUnitStep env rendered)).map Prod.snd).all (fun r => r.success) = true ↔
      numSuccessUnits env dbs = dbs.length := by
  simp [List.map_map, List.all_map, numSuccessUnits, List.countP_map, List.all_eq_true,
        List.countP_eq_length, pgUnitStep, Function.comp]

/-- The count of succeeding units never exceeds the target-set size. -/
theorem numSuccessUnits_le (env : PgEnv) (dbs : List String) :
    numSuccessUnits env dbs ≤ dbs.length := by
  have h := List.countP_le_length (p := fun c => c == "pg_0")
    (l := dbs.map fun db => (run_postgres_command_over_ssh env.parse (env.runExec db)).2)
  simpa [numSuccessUnits] using h

/-! ## Claim theorems -/

/-- C4: the claim as stated maps the no-match, zero-exit case to the
Success code, but the source classifier returns the Unknown code `cmd_99`
there, which is distinct from the success code `cmd_0`. -/
theorem C4_counterexample :
    classify_ssh_error ("") 0 = "cmd_99" ∧
    shellClassifyClaimed ("") 0 = "cmd_0" ∧
    ("cmd_99" : String) ≠ "cmd_0" := by
  refine ⟨by decide, by decide, by decide⟩

/-- C4 (amended): for every stderr string and exit code, the shell
classifier is the ordered first-match rule table of the claim, except that
the final no-match zero-exit case yields the distinct Unknown code
`cmd_99`, never the success code `cmd_0`. -/
theorem C4_shell_classifier_table (s : String) (e : Int) :
    classify_ssh_error s e = shellClassifyAmended s e ∧
    ("cmd_99" : String) ≠ "cmd_0" ∧ ("cmd_18" : String) ≠ "cmd_0" := by
  refine ⟨?_, by decide, by decide⟩
  simp only [classify_ssh_error, shellClassifyAmended, shellRules, firstMatch]

/-- C4 witness: the amended table agrees with the classifier at a
concrete sudo-password stderr. -/
theorem C4_witness :
    classify_ssh_error ("sudo needs a password") 1
      = shellClassifyAmended ("sudo needs a password") 1 :=
  (C4_shell_classifier_table ("sudo needs a password") 1).1

/-- C5: for every stderr string and exit code, the sql classifier is the
ordered first-match rule table of the claim: missing-executable text,
fatal+password, fatal+connectivity, syntax-or-generic error text, then
GenericFailure `pg_18` on non-zero exit, and the ambiguous no-match
zero-exit case yields the distinct Unknown code `pg_99`, never the success
code `pg_0`. -/
theorem C5_sql_classifier_table (s : String) (e : Int) :
    parse_psql_error s e = sqlClassifySpec s e ∧
    ("pg_99" : String) ≠ "pg_0" ∧ ("pg_18" : String) ≠ "pg_0" := by
  refine ⟨?_, by decide, by decide⟩
  simp only [parse_psql_error, sqlClassifySpec, sqlRules, firstMatch]

/-- C5 witness: the table agrees with the classifier at a concrete
password-failure stderr. -/
theorem C5_witness :
    parse_psql_error ("FATAL: password authentication failed") 2
      = sqlClassifySpec ("FATAL: password authentication failed") 2 :=
  (C5_sql_classifier_table ("FATAL: password authentication failed") 2).1

/-- C6: every SQL unit whose remote exit code is 0 yields the success code
`pg_0`, with `data` the parsed JSON when stdout parses, the empty array
(not null) when stdout is empty, and the raw stdout text when parsing
fails. -/
theorem C6_sql_zero_exit_success (parse : String → Option Json) (out err : String) :
    (run_postgres_command_over_ssh parse (Except.ok ⟨out, err, 0⟩)).2 = "pg_0" ∧
    (out = "" →
      (run_postgres_command_over_ssh parse (Except.ok ⟨out, err, 0⟩)).1.data = PgData.jv (Json.arr [])) ∧
    (∀ j, out ≠ "" → parse out = some j →
      (run_postgres_command_over_ssh parse (Except.ok ⟨out, err, 0⟩)).1.data = PgData.jv j) ∧
    (out ≠ "" → parse out = none →
      (run_postgres_command_over_ssh parse (Except.ok ⟨out, err, 0⟩)).1.data = PgData.raw out) ∧
    PgData.jv (Json.arr []) ≠ PgData.jv Json.null := by
  refine ⟨?_, ?_, ?_, ?_, ?_⟩
  · simp only [run_postgres_command_over_ssh]
    split_ifs <;> first
    | rfl
    | (cases hp : parse out <;> simp [hp])
  · intro h
    simp [run_postgres_command_over_ssh, h]
  · intro j hne hp
    simp [run_postgres_command_over_ssh, hne, hp]
  · intro hne hp
    simp [run_postgres_command_over_ssh, hne, hp]
  · intro h
    cases h

/-- C6 witness: a concrete zero-exit invocation with empty stdout returns
the success code with the empty-array payload. -/
theorem C6_witness :
    (run_postgres_command_over_ssh (fun _ => none) (Except.ok ⟨"", "", 0⟩)).2 = "pg_0" ∧
    (run_postgres_command_over_ssh (fun _ => none) (Except.ok ⟨"", "", 0⟩)).1.data
      = PgData.jv (Json.arr []) :=
  ⟨(C6_sql_zero_exit_success (fun _ => none) "" "").1,
   (C6_sql_zero_exit_success (fun _ => none) "" "").2.1 rfl⟩

/-- C7: a transport exception during execution yields the dedicated
dispatch-failure code `ssh_99` in both runners; every in-session outcome
yields a code of the in-session family of its kind; and `ssh_99` belongs
to neither in-session family (in particular it differs from the
GenericFailure codes). -/
theorem C7_transport_code_disjoint :
    (∀ world cmd sd su msg, world (ssh_full_cmd cmd sd su) = Except.error msg →
      (run_ssh_command world cmd sd su).2 = "ssh_99") ∧
    (∀ parse msg,
      (run_postgres_command_over_ssh parse (Except.error msg)).2 = "ssh_99") ∧
    (∀ world cmd sd su e, world (ssh_full_cmd cmd sd su) = Except.ok e →
      (run_ssh_command world cmd sd su).2 ∈ shellSessionCodes) ∧
    (∀ parse e,
      (run_postgres_command_over_ssh parse (Except.ok e)).2 ∈ sqlSessionCodes) ∧
    "ssh_99" ∉ shellSessionCodes ∧ "ssh_99" ∉ sqlSessionCodes := by
  refine ⟨?_, ?_, ?_, ?_, by decide, by decide⟩
  · intro world cmd sd su msg h
    simp [run_ssh_command, h]
  · intro parse msg
    rfl
  · intro world cmd sd su e h
    simp only [run_ssh_command, h]
    split_ifs
    · simp [shellSessionCodes]
    · simpa [shellSessionCodes] using classify_ssh_error_mem e.err e.code
  · intro parse e
    simp only [run_postgres_command_over_ssh]
    split_ifs with h0 hout
    · simp [sqlSessionCodes]
    · cases hp : parse e.out <;> simp [hp, sqlSessionCodes]
    · simpa [sqlSessionCodes] using parse_psql_error_mem e.err e.code

/-- C7 witness: a concrete transport exception in the shell runner yields
`ssh_99`. -/
theorem C7_witness :
    (run_ssh_command (fun _ => Except.error ("boom")) ("ls") false ("root")).2 = "ssh_99" :=
  C7_transport_code_disjoint.1 (fun _ => Except.error ("boom")) ("ls") false ("root") ("boom") rfl

/-- C10: absent a transport exception the SQL runner returns the success
code `pg_0` iff the remote exit code is 0, and the sql classifier never
returns `pg_0` on any input, so zero-exit invocations are never demoted
and non-zero exits never promoted. -/
theorem C10_sql_success_iff_zero_exit :
    (∀ parse out err code,
      (run_postgres_command_over_ssh parse (Except.ok ⟨out, err, code⟩)).2 = "pg_0" ↔ code = 0) ∧
    (∀ s e, parse_psql_error s e ≠ "pg_0") := by
  constructor
  · intro parse out err code
    constructor
    · intro h
      by_contra hc
      have : (run_postgres_command_over_ssh parse (Except.ok ⟨out, err, code⟩)).2
          = parse_psql_error err code := by
        simp [run_postgres_command_over_ssh, hc]
      exact parse_psql_error_ne_success err code (this ▸ h)
    · intro h
      subst h
      simp only [run_postgres_command_over_ssh]
      split_ifs <;> first
      | rfl
      | (cases hp : parse out <;> simp [hp])
  · exact parse_psql_error_ne_success

/-- C10 witness: a concrete zero-exit invocation gets the success code. -/
theorem C10_witness :
    (run_postgres_command_over_ssh pgParseNone (Except.ok ⟨"", "", 0⟩)).2 = "pg_0" :=
  (C10_sql_success_iff_zero_exit.1 pgParseNone "" "" 0).mpr rfl

/-- C1: the claim's PARTIAL condition `0 < k < N` fails on the code: a
host with one resolved unit that ran and failed (k = 0, N = 1) is counted
PARTIAL by the dispatcher's bucketing, not FAIL. -/
theorem C1_counterexample :
    pgBucket (processHostPg pgEnvAllFail).2 = Bucket.part ∧
    resolveDbs pgEnvAllFail = Except.ok ["db1"] ∧
    numSuccessUnits pgEnvAllFail ["db1"] = 0 ∧
    ¬(0 < numSuccessUnits pgEnvAllFail ["db1"]) := by
  refine ⟨by decide, rfl, by decide, by decide⟩

/-- C1 (amended): exactly one bucket is incremented per completed host;
for a host with a resolved, non-empty target set of N units, the host is
counted FAIL iff it failed before any unit ran (past session
establishment this is a template failure, not only transport), counted
PARTIAL iff the units ran and the number k that succeeded satisfies
0 ≤ k < N, and counted success iff k = N. -/
theorem C1_fleet_bucketing (env : PgEnv) (dbs : List String)
    (hc : env.config = Except.ok ()) (hs : env.ssh_code = "ssh_0")
    (hd : resolveDbs env = Except.ok dbs) (hne : dbs ≠ []) :
    (∀ o : Except String PgHostResult,
      (if pgBucket o = Bucket.succ then (1 : Nat) else 0)
        + (if pgBucket o = Bucket.part then 1 else 0)
        + (if pgBucket o = Bucket.fail then 1 else 0) = 1) ∧
    (pgBucket (processHostPg env).2 = Bucket.fail ↔ (∃ e, env.template = Except.error e)) ∧
    (pgBucket (processHostPg env).2 = Bucket.part ↔
      ((∃ r, env.template = Except.ok r) ∧ numSuccessUnits env dbs < dbs.length)) ∧
    (pgBucket (processHostPg env).2 = Bucket.succ ↔
      ((∃ r, env.template = Except.ok r) ∧ numSuccessUnits env dbs = dbs.length)) := by
  have hie : dbs.isEmpty = false := by
    cases dbs
    · exact absurd rfl hne
    · rfl
  cases ht : env.template with
  | error e =>
    have hb : pgBucket (processHostPg env).2 = Bucket.fail := by
      simp [processHostPg, hc, hs, hd, ht, hie, pgBucket, pyTruthyResults, pgTemplateFailRes]
    refine ⟨fun o => bucket_indicator_sum (pgBucket o), ?_, ?_, ?_⟩
    · simp [hb, ht]
    · simp [hb, ht]
    · simp [hb, ht]
  | ok rendered =>
    have hie2 : ((dbs.map (pgUnitStep env rendered)).map Prod.snd).isEmpty = false := by
      cases dbs
      · exact absurd rfl hne
      · rfl
    have hb : pgBucket (processHostPg env).2 =
        (if ((dbs.map (pgUnitStep env rendered)).map Prod.snd).all (fun r => r.success)
          then Bucket.succ else Bucket.part) := by
      simp only [processHostPg, hc, hs, hd, ht, ne_eq, not_true_eq_false, if_false, hie,
        Bool.false_eq_true]
      simp only [pgBucket, pgMainRes, pyTruthyResults, hie2, Bool.false_eq_true, if_false,
        Bool.not_false, if_true]
    have hall := all_success_iff env rendered dbs
    have hle := numSuccessUnits_le env dbs
    refine ⟨fun o => bucket_indicator_sum (pgBucket o), ?_, ?_, ?_⟩
    · rw [hb]
      by_cases h : ((dbs.map (pgUnitStep env rendered)).map Prod.snd).all (fun r => r.success) = true
      · rw [if_pos h]
        simp [ht]
      · rw [if_neg h]
        simp [ht]
    · rw [hb]
      by_cases h : ((dbs.map (pgUnitStep env rendered)).map Prod.snd).all (fun r => r.success) = true
      · rw [if_pos h]
        simp [ht, hall.mp h]
      · have hkN : numSuccessUnits env dbs ≠ dbs.length := fun hEq => h (hall.mpr hEq)
        rw [if_neg h]
        simp [ht, lt_of_le_of_ne hle hkN]
    · rw [hb]
      by_cases h : ((dbs.map (pgUnitStep env rendered)).map Prod.snd).all (fun r => r.success) = true
      · rw [if_pos h]
        simp [ht, hall.mp h]
      · have hkN : numSuccessUnits env dbs ≠ dbs.length := fun hEq => h (hall.mpr hEq)
        rw [if_neg h]
        simp [ht, hkN]

/-- C1 witness: a host with two units, one succeeding and one failing, is
counted PARTIAL. -/
theorem C1_witness : pgBucket (processHostPg pgEnvMixed).2 = Bucket.part := by
  have h := C1_fleet_bucketing pgEnvMixed ["a", "b"] rfl rfl rfl (List.cons_ne_nil _ _)
  exact h.2.2.1.mpr ⟨⟨"SELECT 1", rfl⟩, by decide⟩

/-- C2: a returned SQL host dictionary has `success = true` iff the
transport code is the success code, the unit-result list is present and
non-empty, and every unit in it succeeded; and a host whose resolved unit
set is empty (e.g. every discovered database excluded) yields a failure
dictionary with the no-units code, never a vacuous success. -/
theorem C2_overall_success_invariant :
    (∀ env r, (processHostPg env).2 = Except.ok r →
      (r.success = true ↔
        (r.ssh_code = "ssh_0" ∧ pyTruthyResults r.results = true ∧
          ∀ u ∈ r.results.getD [], u.success = true))) ∧
    (∀ env, env.config = Except.ok () → env.ssh_code = "ssh_0" →
      resolveDbs env = Except.ok [] →
      ∃ r, (processHostPg env).2 = Except.ok r ∧ r.success = false ∧
        r.pg_code = some "pg_99" ∧ r.results = none) := by
  constructor
  · intro env r h
    cases hcf : env.config with
    | error e =>
      simp only [processHostPg, hcf, Except.ok.injEq] at h
      subst h
      simp [pyTruthyResults, ssh99_ne_ssh0, pgConfigFailRes]
    | ok u =>
      by_cases hs : env.ssh_code = "ssh_0"
      · cases hd : resolveDbs env with
        | error e =>
          simp [processHostPg, hcf, hs, hd] at h
        | ok dbs =>
          by_cases hie : dbs.isEmpty = true
          · simp [processHostPg, hcf, hs, hd, hie] at h
            subst h
            simp [pyTruthyResults, pgNoDbRes]
          · have hdne : dbs ≠ [] := by
              intro hh
              rw [hh] at hie
              exact hie rfl
            cases ht : env.template with
            | error e =>
              simp [processHostPg, hcf, hs, hd, hie, ht] at h
              subst h
              simp [pyTruthyResults, pgTemplateFailRes]
            | ok rendered =>
              simp [processHostPg, hcf, hs, hd, hie, ht] at h
              subst h
              have hie2 : ((dbs.map (pgUnitStep env rendered)).map Prod.snd).isEmpty = false := by
                cases dbs
                · exact absurd rfl hdne
                · rfl
              simp only [pgMainRes, pyTruthyResults, Option.getD_some, hie2,
                Bool.false_eq_true, if_false, Bool.not_false]
              simp [List.all_eq_true]
      · simp only [processHostPg, hcf, hs, ne_eq, not_false_eq_true, if_true,
          Except.ok.injEq] at h
        subst h
        simp [pyTruthyResults, hs, pgSshFailRes]
  · intro env h1 h2 h3
    have hres : (processHostPg env).2 = Except.ok (pgNoDbRes env) := by
      simp [processHostPg, h1, h2, h3]
    exact ⟨pgNoDbRes env, hres, rfl, rfl, rfl⟩

/-- C2 witness: excluding every discovered database yields a returned
failure dictionary with the no-units code. -/
theorem C2_witness :
    ∃ r, (processHostPg pgEnvExcluded).2 = Except.ok r ∧ r.success = false ∧
      r.pg_code = some "pg_99" ∧ r.results = none :=
  C2_overall_success_invariant.2 pgEnvExcluded rfl rfl rfl

/-- C3: the claim says no pipeline failure ever escapes, but the shell
variant's `process_host` has no exception handler: a config-resolution
failure propagates out of the pipeline (an `Except.error`, not a returned
dictionary) with no log record written. -/
theorem C3_counterexample :
    (processHostSsh shellEnvBadConfig).1 = [] ∧
    (processHostSsh shellEnvBadConfig).2.isOk = false ∧
    (processHostSsh shellEnvBadConfig).2 = Except.error ("Host not found or disabled") := by
  refine ⟨rfl, rfl, rfl⟩

/-- C3 (amended): in the SQL variant every config-resolution, session,
template-rendering and per-unit failure is converted to a returned
dictionary and logged before returning (config failures return the
`ssh_99` code with no session consulted); in the shell variant session
and per-unit failures are likewise returned and logged, but
config-resolution and template-rendering failures escape the pipeline
unlogged (they are downgraded to a fail outcome only by the dispatcher's
loop). -/
theorem C3_failure_containment :
    (∀ env e, env.config = Except.error e →
      (processHostPg env).1.length = 1 ∧
      ∃ r, (processHostPg env).2 = Except.ok r ∧ r.success = false ∧
        r.ssh_code = "ssh_99" ∧ r.results = none) ∧
    (∀ env, env.config = Except.ok () → env.ssh_code ≠ "ssh_0" →
      (processHostPg env).1.length = 1 ∧
      ∃ r, (processHostPg env).2 = Except.ok r ∧ r.success = false ∧
        r.ssh_code = env.ssh_code) ∧
    (∀ env dbs e, env.config = Except.ok () → env.ssh_code = "ssh_0" →
      resolveDbs env = Except.ok dbs → dbs ≠ [] → env.template = Except.error e →
      (processHostPg env).1.length = 1 ∧
      ∃ r, (processHostPg env).2 = Except.ok r ∧ r.success = false ∧
        r.pg_code = some "pg_99") ∧
    (∀ env dbs rendered, env.config = Except.ok () → env.ssh_code = "ssh_0" →
      resolveDbs env = Except.ok dbs → dbs ≠ [] → env.template = Except.ok rendered →
      (processHostPg env).1.length = dbs.length ∧
      ∃ r, (processHostPg env).2 = Except.ok r) ∧
    (∀ env rendered, env.config = Except.ok () → env.render = Except.ok rendered →
      env.dry_run = false → env.ssh_code ≠ "ssh_0" →
      (processHostSsh env).1.length = 1 ∧
      ∃ r, (processHostSsh env).2 = Except.ok r ∧ r.success = false) ∧
    (∀ env rendered, env.config = Except.ok () → env.render = Except.ok rendered →
      env.dry_run = false → env.ssh_code = "ssh_0" →
      (processHostSsh env).1.length = 1 ∧
      ∃ r, (processHostSsh env).2 = Except.ok r) ∧
    (∀ env e, env.config = Except.error e →
      processHostSsh env = ([], Except.error e)) ∧
    (∀ env e, env.config = Except.ok () → env.render = Except.error e →
      processHostSsh env = ([], Except.error e)) := by
  refine ⟨?_, ?_, ?_, ?_, ?_, ?_, ?_, ?_⟩
  · intro env e h
    have hres : (processHostPg env).2 = Except.ok (pgConfigFailRes env e) := by
      simp [processHostPg, h]
    exact ⟨by simp [processHostPg, h], pgConfigFailRes env e, hres, rfl, rfl, rfl⟩
  · intro env h1 h2
    have hres : (processHostPg env).2 = Except.ok (pgSshFailRes env) := by
      simp [processHostPg, h1, h2]
    exact ⟨by simp [processHostPg, h1, h2], pgSshFailRes env, hres, rfl, rfl⟩
  · intro env dbs e h1 h2 h3 h4 h5
    have hie : dbs.isEmpty = false := by
      cases dbs
      · exact absurd rfl h4
      · rfl
    have hres : (processHostPg env).2 = Except.ok (pgTemplateFailRes env e) := by
      simp [processHostPg, h1, h2, h3, h5, hie]
    exact ⟨by simp [processHostPg, h1, h2, h3, h5, hie], pgTemplateFailRes env e, hres, rfl, rfl⟩
  · intro env dbs rendered h1 h2 h3 h4 h5
    have hie : dbs.isEmpty = false := by
      cases dbs
      · exact absurd rfl h4
      · rfl
    have hres : (processHostPg env).2 = Except.ok (pgMainRes env rendered dbs) := by
      simp [processHostPg, h1, h2, h3, h5, hie]
    refine ⟨?_, pgMainRes env rendered dbs, hres⟩
    simp [processHostPg, h1, h2, h3, h5, hie]
  · intro env rendered h1 h2 h3 h4
    have hres : (processHostSsh env).2 = Except.ok (shellSshFailRes env) := by
      simp [processHostSsh, h1, h2, h3, h4]
    exact ⟨by simp [processHostSsh, h1, h2, h3, h4], shellSshFailRes env, hres, rfl⟩
  · intro env rendered h1 h2 h3 h4
    have hres : (processHostSsh env).2 = Except.ok (shellRunRes env rendered) := by
      simp [processHostSsh, h1, h2, h3, h4]
    exact ⟨by simp [processHostSsh, h1, h2, h3, h4], shellRunRes env rendered, hres⟩
  · intro env e h
    simp [processHostSsh, h]
  · intro env e h1 h2
    simp [processHostSsh, h1, h2]

/-- C3 witness: a concrete SQL-variant config failure is logged once and
returned as a failure dictionary. -/
theorem C3_witness :
    (processHostPg pgEnvBadConfig).1.length = 1 ∧
    ∃ r, (processHostPg pgEnvBadConfig).2 = Except.ok r ∧ r.success = false ∧
      r.ssh_code = "ssh_99" ∧ r.results = none :=
  C3_failure_containment.1 pgEnvBadConfig ("Host missing") rfl

/-- C8: the claim fails for the SQL variant: a dispatch run with one host
whose outcome is not a full success still exits 0, because the SQL
variant's entry point never feeds its result into the process exit
status. -/
theorem C8_counterexample :
    pgProcessExitCode [(processHostPg pgEnvSshFail).2] = 0 ∧
    pgBucket (processHostPg pgEnvSshFail).2 = Bucket.fail ∧
    Bucket.fail ≠ Bucket.succ := by
  refine ⟨rfl, by decide, by decide⟩

/-- C8 (amended): for the shell variant with a non-empty host list, the
process exit code is non-zero iff at least one host's outcome is not a
full success; the SQL variant's normal path always exits 0 regardless of
the outcomes. -/
theorem C8_exit_code (outs : List (Except String ShellRes)) (hne : outs ≠ []) :
    (shellMainExitCode outs ≠ 0 ↔ ∃ o ∈ outs, shellNotFullSuccess o = true) ∧
    (∀ pouts : List (Except String PgHostResult), pgProcessExitCode pouts = 0) := by
  constructor
  · obtain ⟨o, t, rfl⟩ := List.exists_cons_of_ne_nil hne
    by_cases h : (o :: t).countP shellNotFullSuccess = 0
    · have hz := List.countP_eq_zero.mp h
      simp only [shellMainExitCode, List.isEmpty_cons, Bool.false_eq_true, if_false, h, if_true]
      constructor
      · intro hfalse
        exact absurd rfl hfalse
      · rintro ⟨x, hx, hpx⟩
        exact absurd hpx (by simpa using hz x hx)
    · have hpos : 0 < (o :: t).countP shellNotFullSuccess := Nat.pos_of_ne_zero h
      simp only [shellMainExitCode, List.isEmpty_cons, Bool.false_eq_true, if_false, h, if_false]
      constructor
      · intro _
        exact List.countP_pos_iff.mp hpos
      · intro _
        decide
  · intro pouts
    rfl

/-- C8 witness: the SQL variant exits 0 on the empty outcome list too. -/
theorem C8_witness : pgProcessExitCode [] = 0 :=
  (C8_exit_code [Except.error ("x")] (List.cons_ne_nil _ _)).2 []

/-- C9: with `allow_new_hosts = false` the client holds only the
previously trusted keys and a host presenting an unknown key is rejected
with a transport-failure code and no session (fails closed); with
`allow_new_hosts = true` an unknown key is trusted, recorded in the
client's key store, and the session opens. -/
theorem C9_host_key_policy (sys : List (String × String)) (net : SshNet) (host : String) :
    ((host, net.presentedKey host) ∉ sys →
      (get_ssh_connection sys net host false).1 = none ∧
      (get_ssh_connection sys net host false).2 ≠ "ssh_0" ∧
      (∃ e, (get_ssh_connection sys net host false).2 = ("ssh_99: ") ++ e)) ∧
    (net.reachable host = true →
      ∃ st, get_ssh_connection sys net host true = (some st, "ssh_0") ∧
        (host, net.presentedKey host) ∈ st.hostKeys) := by
  constructor
  · intro hmem
    have hred : get_ssh_connection sys net host false =
        (none, ("ssh_99: ") ++ (("Server ") ++ host ++ (" not found in known_hosts"))) := by
      simp [get_ssh_connection, paramikoConnect, hmem]
    rw [hred]
    exact ⟨rfl, ssh99_prefix_ne _, ⟨_, rfl⟩⟩
  · intro hreach
    by_cases hmem : (host, net.presentedKey host) ∈ ([] : List (String × String))
    · simp at hmem
    · refine ⟨{ hostKeys := [(host, net.presentedKey host)], policy := .autoAdd }, ?_, by simp⟩
      simp [get_ssh_connection, paramikoConnect, hreach]

/-- C9 witness: a concrete unknown-key host is rejected when
trust-on-first-use is off, and trusted, recorded and connected when it is
on. -/
theorem C9_witness :
    ((get_ssh_connection [] netAllK ("h") false).1 = none ∧
      (get_ssh_connection [] netAllK ("h") false).2 ≠ "ssh_0" ∧
      (∃ e, (get_ssh_connection [] netAllK ("h") false).2 = ("ssh_99: ") ++ e)) ∧
    (∃ st, get_ssh_connection [] netAllK ("h") true = (some st, "ssh_0") ∧
      ("h", netAllK.presentedKey ("h")) ∈ st.hostKeys) :=
  ⟨(C9_host_key_policy [] netAllK ("h")).1 (by simp),
   (C9_host_key_policy [] netAllK ("h")).2 rfl⟩

end Wasserfall
